import Mathlib

/-!
Shallow embedding of the build/test orchestration scripts of the repository:
`Utilities/helpers.py`, `swift-tools-support-core/Utilities/build-script-helper.py`
and `Examples/swift-syntax/build-script.py`.  Subprocess exit codes, filesystem
probes and environment lookups are passed in as explicit inputs; each Python
function that the claims mention is translated into a Lean definition below,
and the theorems at the end of the file settle the claims against those
definitions.
-/

/-! ## String infrastructure: substring containment, as used by the Python
operator `needle in haystack` on strings. -/

/-- Does the character list start with the given pattern? (`l.startsWith p`). -/
def charsStartWith : List Char → List Char → Bool
  | _, [] => true
  | [], _ :: _ => false
  | c :: cs, d :: ds => c == d && charsStartWith cs ds

/-- Does the character list contain `needle` as a contiguous run? -/
def charsContain (needle : List Char) : List Char → Bool
  | [] => charsStartWith [] needle
  | c :: cs => charsStartWith (c :: cs) needle || charsContain needle cs

/-- Python `needle in hay` on strings: contiguous substring containment. -/
def containsSub (hay needle : String) : Bool :=
  charsContain needle.data hay.data

/-- Does the character list contain the given character? (`c in s`). -/
def listHasChar : List Char → Char → Bool
  | [], _ => false
  | c :: cs, t => c == t || listHasChar cs t

/-- Python `s.replace(target, repl)` where the target is a single character:
every occurrence of `target` is replaced by the characters `repl`. -/
def replaceChar (target : Char) (repl : List Char) : List Char → List Char
  | [] => []
  | c :: cs =>
    if c == target then repl ++ replaceChar target repl cs
    else c :: replaceChar target repl cs

/-- Python `" ".join(parts)`. -/
def joinSpace : List String → String
  | [] => ""
  | [a] => a
  | a :: b :: rest => a ++ " " ++ joinSpace (b :: rest)

/-- Split a character list on the path separator `/`, keeping empty parts,
as Python `s.split("/")` does. -/
def splitSlashAux : List Char → List Char → List (List Char)
  | [], acc => [acc.reverse]
  | c :: cs, acc =>
    if c == '/' then acc.reverse :: splitSlashAux cs []
    else splitSlashAux cs (c :: acc)

/-- The `/`-separated components of a path string. -/
def pathComponents (p : String) : List (List Char) :=
  splitSlashAux p.data []

/-- Rejoin path components with `/`, as Python `"/".join(parts)`. -/
def joinSlash : List (List Char) → List Char
  | [] => []
  | [a] => a
  | a :: b :: rest => a ++ '/' :: joinSlash (b :: rest)

/-! ## ProcessRunner variants (`call` / `check_call` in the three files).

Each model takes the spawned child's exit code as an explicit input and
returns what the Python function does once the child has exited: either a
normal return or a raised exception (`Except.error`). -/

/-- The fields of Python `subprocess.CalledProcessError` that the claims
mention: the command line and the child's exit code (these scripts do not
capture output for `check_call`, so the error's output field is `None`). -/
structure CalledProcessError where
  cmd : List String
  returncode : Nat
deriving DecidableEq, Repr

/-- Python `SystemExit`, as raised by `error(...)` in
`swift-tools-support-core/Utilities/build-script-helper.py`: carries only the
process exit status (always 1 there), not the failing command or code. -/
structure SystemExit where
  status : Nat
deriving DecidableEq, Repr

/-- `Utilities/helpers.py` `call`: `subprocess.check_call` raises
`CalledProcessError` on a non-zero exit; the handler logs and re-raises it. -/
def helpers_call (cmd : List String) (returncode : Nat) :
    Except CalledProcessError Unit :=
  if returncode = 0 then Except.ok () else
    Except.error (CalledProcessError.mk cmd returncode)

/-- `swift-tools-support-core/Utilities/build-script-helper.py` `call`:
catches every exception, prints the command and calls `error(str(e))`, which
raises `SystemExit(1)`. -/
def buildscripthelper_call (cmd : List String) (returncode : Nat) :
    Except SystemExit Unit :=
  if returncode = 0 then Except.ok () else Except.error (SystemExit.mk 1)

/-- `Examples/swift-syntax/build-script.py` `call`: spawns the process with
`subprocess.Popen`, waits, and returns `process.returncode` — it never raises
on a non-zero exit. -/
def swiftsyntax_call (cmd : List String) (returncode : Nat) :
    Except CalledProcessError Nat :=
  Except.ok returncode

/-- `Examples/swift-syntax/build-script.py` `check_call`:
`subprocess.check_call` raises `CalledProcessError` on a non-zero exit. -/
def swiftsyntax_check_call (cmd : List String) (returncode : Nat) :
    Except CalledProcessError Unit :=
  if returncode = 0 then Except.ok () else
    Except.error (CalledProcessError.mk cmd returncode)

/-! ## Verbose echoing (`escapeCmdArg` and the echo in `call`,
`Examples/swift-syntax/build-script.py`). -/

/-- `escapeCmdArg`: wrap the argument in double quotes, escaping any inner
double quote with a backslash, when it contains a double quote or a space
character; otherwise return it unchanged. -/
def escapeCmdArg (arg : String) : String :=
  if listHasChar arg.data '"' || listHasChar arg.data ' ' then
    "\"" ++ String.mk (replaceChar '"' ['\\', '"'] arg.data) ++ "\""
  else
    arg

/-- The line printed by `call`/`check_call` before execution when `verbose`
is set: the escaped arguments joined by spaces; nothing is printed otherwise. -/
def call_echo (cmd : List String) (verbose : Bool) : Option String :=
  if verbose then some (joinSpace (cmd.map escapeCmdArg)) else none

/-- The argument vector handed to `subprocess.Popen` by `call`: the command
list itself, unmodified (never a shell string). -/
def call_exec_vector (cmd : List String) : List String := cmd

/-! ## `change_directory` (`Utilities/helpers.py`).

The process state tracked is the current working directory.  The body of the
`with` block runs with the new directory current and may itself move the
working directory and/or raise; it is modelled as a function from the
directory it starts in to the directory it leaves behind paired with an
optional exception.  The `finally` clause restores the saved directory in
both outcomes and lets the exception propagate. -/

def change_directory (cwd0 : String) (dir : String)
    (body : String → String × Option Nat) : String × Option Nat :=
  let current_directory := cwd0
  let bodyResult := body dir
  let cwdAfterFinally := current_directory
  (cwdAfterFinally, bodyResult.2)

/-! ## `build_with_cmake` (`swift-tools-support-core/Utilities/build-script-helper.py`).

The filesystem probe `os.path.isfile(cache_path)` together with
`open(cache_path).read()` is modelled as an `Option String`: `none` when the
cache marker `CMakeCache.txt` is absent, `some content` when present.  The
outcomes of the cmake and ninja subprocesses are explicit boolean inputs; the
trace of external invocations made before the function returns or aborts is
returned alongside the success flag (a failing `call` raises `SystemExit`
and nothing after it runs). -/

/-- One external invocation made by `build_with_cmake`, tagged with the
directory it runs against (`cwd=build_dir` in the source). -/
inductive CMakeInv where
  | configure (buildDir : String)
  | ninja (buildDir : String)
deriving DecidableEq, Repr

/-- The condition of line 198:
`args.reconfigure or not os.path.isfile(cache_path) or not args.swiftc_path in open(cache_path).read()`.
Note the third disjunct is substring containment of the resolved compiler
path in the whole cache file content, not an equality of recorded paths. -/
def needsConfigure (reconfigure : Bool) (swiftcPath : String)
    (cache : Option String) : Bool :=
  reconfigure ||
    (match cache with
     | none => true
     | some content => !containsSub content swiftcPath)

/-- `build_with_cmake`: run cmake when `needsConfigure` holds, then always
run ninja — except that a failing configure call raises `SystemExit` first,
so the ninja invocation is only reached when configure succeeded (or was
skipped).  Returns the invocation trace and whether the function returned
normally (i.e. no invoked call failed). -/
def build_with_cmake (reconfigure : Bool) (swiftcPath : String)
    (cache : Option String) (buildDir : String)
    (configureOk ninjaOk : Bool) : List CMakeInv × Bool :=
  if needsConfigure reconfigure swiftcPath cache then
    if configureOk then
      ([CMakeInv.configure buildDir, CMakeInv.ninja buildDir], ninjaOk)
    else
      ([CMakeInv.configure buildDir], false)
  else
    ([CMakeInv.ninja buildDir], ninjaOk)

/-- Modelled from the spec: "a cache marker file whose content records the
toolchain path used to configure it" — the marker written by the configure
tool embeds the recorded toolchain path inside a cache entry (the configure
command passes it as `-DCMAKE_Swift_COMPILER:=<path>`).  Only the external
configure tool writes this file, so its exact layout is modelled, not read
from `src/`. -/
def cacheRecording (toolchain : String) : String :=
  "CMAKE_Swift_COMPILER:FILEPATH=" ++ toolchain

/-- Helper for C2: is this invocation a ninja (build-tool) invocation? -/
def isNinjaInv : CMakeInv → Bool
  | CMakeInv.configure _ => false
  | CMakeInv.ninja _ => true

/-! ## The swift-syntax pipeline (`Examples/swift-syntax/build-script.py`).

`generate_gyb_files` iterates over the `.gyb` files of the sources directory
in listing order; for each it runs the gyb generator into a scratch file
(`check_call`, which raises `CalledProcessError` on a non-zero exit) and then
`rsync --checksum` to reconcile the scratch file into `gyb_generated`
(again via `check_call`).  `main` wraps the phase in a handler that prints a
diagnostic and exits with status 1, and only on success goes on to the build
phase and (optionally) the test phase.  Generator and rsync exit statuses are
explicit boolean oracles indexed by the unit's file name. -/

/-- One observable step of the swift-syntax pipeline. -/
inductive PipeInv where
  | gen (file : String)
  | sync (file : String)
  | buildPhase
  | testPhase
deriving DecidableEq, Repr

/-- The per-unit loop of `generate_gyb_files`: generator invocation, then
sync invocation; a `CalledProcessError` from either aborts the loop (the
flag is `false` when the phase raised). -/
def generate_gyb_files (genOk syncOk : String → Bool) :
    List String → List PipeInv × Bool
  | [] => ([], true)
  | f :: fs =>
    if genOk f then
      if syncOk f then
        let rest := generate_gyb_files genOk syncOk fs
        (PipeInv.gen f :: PipeInv.sync f :: rest.1, rest.2)
      else
        ([PipeInv.gen f, PipeInv.sync f], false)
    else
      ([PipeInv.gen f], false)

/-- The trace produced by a run of units that all succeed. -/
def genTrace : List String → List PipeInv
  | [] => []
  | g :: gs => PipeInv.gen g :: PipeInv.sync g :: genTrace gs

/-- `main`: generation phase, then build phase, then optional test phase;
a `CalledProcessError` escaping a phase is caught, reported, and turns into
`sys.exit(1)`; a test-suite failure also exits 1.  Returns the observable
trace and the process exit code. -/
def mainRun (genOk syncOk : String → Bool) (gybFiles : List String)
    (buildOk : Bool) (runTestsFlag : Bool) (testsOk : Bool) :
    List PipeInv × Nat :=
  let g := generate_gyb_files genOk syncOk gybFiles
  if g.2 then
    let tr := g.1 ++ [PipeInv.buildPhase]
    if buildOk then
      if runTestsFlag then
        (tr ++ [PipeInv.testPhase], if testsOk then 0 else 1)
      else
        (tr, 0)
    else
      (tr, 1)
  else
    (g.1, 1)

/-! ## `run_tests` (`Examples/swift-syntax/build-script.py`).

The two sub-runs are external processes whose success is an explicit input:
`run_lit_tests` first, and `run_xctests` only if the lit run succeeded. -/

/-- One test sub-run invocation. -/
inductive TestInv where
  | litRun
  | xctestRun
deriving DecidableEq, Repr

/-- `run_tests`: the lit sub-run always executes; on its failure the function
returns `False` without calling `run_xctests`; otherwise the xctest sub-run
executes and decides the result. -/
def run_tests (litOk xctOk : Bool) : List TestInv × Bool :=
  if litOk then
    ([TestInv.litRun, TestInv.xctestRun], xctOk)
  else
    ([TestInv.litRun], false)

/-! ## `run_xctests` environment handling (`Examples/swift-syntax/build-script.py`).

Only the search-path variable matters to the claim, so the environment map is
modelled by its `PATH` entry.  The source line `subenv = os.environ` binds
`subenv` to the very same mapping object as the parent environment — not a
copy — so the later assignment `subenv['PATH'] = ...` is visible both in the
environment passed to the child and in the parent process afterwards. -/

/-- An environment map, restricted to its search-path entry. -/
structure EnvMap where
  path : String
deriving DecidableEq, Repr

/-- Modelled from the spec: `realpath(swiftc_exec + "/..")` is a filesystem
call that is not part of the repository; on an absolute, symlink-free path it
denotes the containing directory of `swiftc_exec`, modelled by dropping the
final path component. -/
def containingDir (p : String) : String :=
  String.mk (joinSlash (pathComponents p).dropLast)

/-- The environment handling of `run_xctests`: returns the environment passed
to the child process and the parent environment as observed after the call.
When a compiler path is supplied, `subenv['PATH']` is assigned the containing
directory prepended with a `:` separator, and because `subenv` aliases
`os.environ` the parent environment carries the same assignment. -/
def run_xctests_envs (parent : EnvMap) (swiftcExec : Option String) :
    EnvMap × EnvMap :=
  match swiftcExec with
  | none => (parent, parent)
  | some p =>
    let subenv := EnvMap.mk (containingDir p ++ ":" ++ parent.path)
    (subenv, subenv)

/-! ## ArtifactSync (`rsync --checksum`, invoked by `generate_gyb_files`). -/

/-- A destination file on disk: its content together with its modification
time. -/
structure FileRec where
  content : String
  mtime : Nat
deriving DecidableEq, Repr

/-- The outcome of one reconciliation. -/
inductive SyncDecision where
  | identical
  | differs
deriving DecidableEq, Repr

/-- Modelled from the spec: the content reconciliation performed by the
external `rsync --checksum` invocation (rsync itself is not part of the
repository) — "If destination is missing or differs, copies candidate over
destination ... and reports differs; otherwise leaves destination untouched
and reports identical".  The destination is `none` when missing; a copy
stamps the current time `now` as the new modification time. -/
def syncIfChanged (cand : String) (dest : Option FileRec) (now : Nat) :
    Option FileRec × SyncDecision :=
  match dest with
  | none => (some (FileRec.mk cand now), SyncDecision.differs)
  | some f =>
    if f.content = cand then
      (some f, SyncDecision.identical)
    else
      (some (FileRec.mk cand now), SyncDecision.differs)

/-- The rsync command line built by `generate_gyb_files` for one unit. -/
def rsyncCmd (tempFilesDir generatedFilesDir outputFileName : String) :
    List String :=
  ["rsync", "--checksum",
    tempFilesDir ++ "/" ++ outputFileName,
    generatedFilesDir ++ "/" ++ outputFileName]

/-! ## `get_swiftc_path` (`swift-tools-support-core/Utilities/build-script-helper.py`).

The three-way discovery (explicit `--swiftc-path` flag after `abspath`, the
`SWIFT_EXEC` environment variable after `realpath`, or a search-path lookup
via `xcrun --find swiftc` / `which swiftc`) is modelled as a sum type
carrying the path each branch yields; `abspath`, `realpath` and the lookup
tools are external, so the branch carries their result. -/

/-- Which discovery branch found the compiler, and the path it produced. -/
inductive SwiftcDiscovery where
  | flagArg (p : String)
  | envVar (p : String)
  | xcrunFind (p : String)
  | whichLookup (p : String)
deriving DecidableEq, Repr

/-- The path a discovery branch produced. -/
def discoveredSwiftcPath : SwiftcDiscovery → String
  | SwiftcDiscovery.flagArg p => p
  | SwiftcDiscovery.envVar p => p
  | SwiftcDiscovery.xcrunFind p => p
  | SwiftcDiscovery.whichLookup p => p

/-- `os.path.basename`: the component after the last path separator. -/
def basename (p : String) : String :=
  String.mk ((pathComponents p).getLastD [])

/-- `get_swiftc_path`: whatever branch discovered the path, append `c` when
its basename is exactly `swift`, and return it unchanged otherwise. -/
def get_swiftc_path (d : SwiftcDiscovery) : String :=
  let p := discoveredSwiftcPath d
  if basename p = "swift" then p ++ "c" else p

/-! ## Helper lemmas -/

theorem charsStartWith_self (l : List Char) : charsStartWith l l = true := by
  induction l with
  | nil => rfl
  | cons c cs ih => simp [charsStartWith, ih]

theorem charsContain_self (n : List Char) : charsContain n n = true := by
  cases n with
  | nil => rfl
  | cons c cs => simp [charsContain, charsStartWith_self]

theorem charsContain_append (pre n : List Char) :
    charsContain n (pre ++ n) = true := by
  induction pre with
  | nil => simpa using charsContain_self n
  | cons p ps ih => simp [charsContain, ih]

theorem containsSub_cacheRecording (s : String) :
    containsSub (cacheRecording s) s = true := by
  unfold containsSub cacheRecording
  rw [String.data_append]
  exact charsContain_append _ _

theorem needsConfigure_true_iff (r : Bool) (s : String) (cache : Option String) :
    needsConfigure r s cache = true ↔
      (r = true ∨ cache = none ∨
        ∃ ct, cache = some ct ∧ containsSub ct s = false) := by
  cases cache with
  | none => simp [needsConfigure]
  | some ct =>
    cases r with
    | true => simp [needsConfigure]
    | false =>
      cases h : containsSub ct s with
      | true => simp [needsConfigure, h]
      | false => simp [needsConfigure, h]

theorem configure_mem_trace (r : Bool) (s : String) (cache : Option String)
    (d : String) (cOk nOk : Bool) :
    (CMakeInv.configure d ∈ (build_with_cmake r s cache d cOk nOk).1) ↔
      needsConfigure r s cache = true := by
  unfold build_with_cmake
  cases h : needsConfigure r s cache with
  | true => cases cOk <;> simp [h]
  | false => simp [h]

/-! ## Claim theorems -/

/-- C1 (counterexample): with no force flag, a cache marker that records the
toolchain path `/tc/bin/swiftc-5.0`, and the resolved toolchain path
`/tc/bin/swiftc`, the recorded path differs from the resolved one — so the
claim requires a configure invocation — yet configure is not invoked, because
the source tests substring containment of the resolved path in the cache
content rather than equality of the recorded and resolved paths. -/
theorem configure_trigger_counterexample :
    "/tc/bin/swiftc-5.0" ≠ "/tc/bin/swiftc" ∧
    CMakeInv.configure ".build" ∉
      (build_with_cmake false "/tc/bin/swiftc"
        (some (cacheRecording "/tc/bin/swiftc-5.0")) ".build" true true).1 := by
  constructor
  · decide
  · rw [configure_mem_trace]
    have h : containsSub (cacheRecording "/tc/bin/swiftc-5.0")
        "/tc/bin/swiftc" = true := by
      unfold containsSub cacheRecording
      rw [String.data_append]
      decide
    simp [needsConfigure, h]

/-- C1 (amended): the configure tool is invoked if and only if the cache
marker is absent, the force-reconfigure flag is set, or the resolved toolchain
path does not occur as a substring of the cache marker's content; in
particular, when the marker exists, no force flag is set, and the marker's
content embeds the resolved toolchain path (as it does when the same toolchain
configured it), configure is not invoked. -/
theorem configure_trigger_characterization (r : Bool) (s : String)
    (cache : Option String) (d : String) (cOk nOk : Bool) :
    (CMakeInv.configure d ∈ (build_with_cmake r s cache d cOk nOk).1 ↔
      (r = true ∨ cache = none ∨
        ∃ ct, cache = some ct ∧ containsSub ct s = false)) ∧
    CMakeInv.configure d ∉
      (build_with_cmake false s (some (cacheRecording s)) d cOk nOk).1 := by
  constructor
  · rw [configure_mem_trace]
    exact needsConfigure_true_iff r s cache
  · rw [configure_mem_trace]
    simp [needsConfigure, containsSub_cacheRecording]

/-- C1 (witness): with the force-reconfigure flag set, configure is invoked. -/
theorem configure_trigger_witness :
    CMakeInv.configure ".build" ∈
      (build_with_cmake true "/tc/bin/swiftc" (some "x") ".build" true true).1 :=
  (configure_trigger_characterization true "/tc/bin/swiftc" (some "x")
    ".build" true true).1.mpr (Or.inl rfl)

/-- C2: on every run of `build_with_cmake` in which the configure invocation
(when made at all) succeeds, the build tool ninja is invoked exactly once,
against the build directory — in both branches of the configure decision.
(The hypothesis is forced by the source: a failing configure `call` raises
`SystemExit` before the ninja line is reached.) -/
theorem ninja_always_invoked_once (r : Bool) (s : String)
    (cache : Option String) (d : String) (cOk nOk : Bool)
    (h : needsConfigure r s cache = true → cOk = true) :
    (build_with_cmake r s cache d cOk nOk).1.filter isNinjaInv =
      [CMakeInv.ninja d] := by
  cases hc : needsConfigure r s cache with
  | true =>
    have hcOk := h hc
    subst hcOk
    simp [build_with_cmake, hc, isNinjaInv]
  | false => simp [build_with_cmake, hc, isNinjaInv]

/-- C2 (witness): with the cache marker absent and a succeeding configure,
ninja runs exactly once against the build directory. -/
theorem ninja_always_invoked_once_witness :
    (build_with_cmake false "/tc/bin/swiftc" none ".build" true true).1.filter
      isNinjaInv = [CMakeInv.ninja ".build"] :=
  ninja_always_invoked_once false "/tc/bin/swiftc" none ".build" true true
    (fun _ => rfl)

theorem generate_gyb_files_fail (genOk syncOk : String → Bool)
    (pre post : List String) (f : String)
    (hpre : ∀ g ∈ pre, genOk g = true ∧ syncOk g = true)
    (hf : genOk f = false) :
    generate_gyb_files genOk syncOk (pre ++ f :: post) =
      (genTrace pre ++ [PipeInv.gen f], false) := by
  induction pre with
  | nil => simp [generate_gyb_files, hf, genTrace]
  | cons g gs ih =>
    have hg := hpre g (by simp)
    have hrest : ∀ x ∈ gs, genOk x = true ∧ syncOk x = true :=
      fun x hx => hpre x (by simp [hx])
    simp [generate_gyb_files, hg.1, hg.2, ih hrest, genTrace]

/-- C3: if the generator invocation for one unit exits non-zero (after every
earlier unit generated and synced successfully), the pipeline's observable
trace is exactly the earlier units' generate/sync steps followed by the
failing generator invocation — no later unit is generated or synced, the
build phase is never invoked, the operations already performed for earlier
units are not revisited (no rollback) — and the process exit code is 1. -/
theorem gyb_generator_failure_aborts_pipeline (genOk syncOk : String → Bool)
    (pre post : List String) (f : String)
    (buildOk runTestsFlag testsOk : Bool)
    (hpre : ∀ g ∈ pre, genOk g = true ∧ syncOk g = true)
    (hf : genOk f = false) :
    mainRun genOk syncOk (pre ++ f :: post) buildOk runTestsFlag testsOk =
      (genTrace pre ++ [PipeInv.gen f], 1) := by
  unfold mainRun
  rw [generate_gyb_files_fail genOk syncOk pre post f hpre hf]
  simp

/-- C3 (witness): with three units of which the second fails to generate, the
run performs generate+sync for the first, the failing generate for the
second, nothing for the third, never reaches the build phase, and exits 1. -/
theorem gyb_generator_failure_witness :
    mainRun (fun g => !(g == "B.swift.gyb")) (fun _ => true)
      ["A.swift.gyb", "B.swift.gyb", "C.swift.gyb"] true true true =
      (genTrace ["A.swift.gyb"] ++ [PipeInv.gen "B.swift.gyb"], 1) :=
  gyb_generator_failure_aborts_pipeline (fun g => !(g == "B.swift.gyb"))
    (fun _ => true) ["A.swift.gyb"] ["C.swift.gyb"] "B.swift.gyb"
    true true true (by decide) (by decide)

/-- C4: `run_tests` succeeds exactly when both the lit sub-run and the xctest
sub-run exit zero; the lit sub-run always executes first, and when it fails
the xctest runner is never invoked and the phase reports failure. -/
theorem run_tests_iff_and_order (litOk xctOk : Bool) :
    ((run_tests litOk xctOk).2 = true ↔ (litOk = true ∧ xctOk = true)) ∧
    ((run_tests litOk xctOk).1.head? = some TestInv.litRun) ∧
    (litOk = false →
      TestInv.xctestRun ∉ (run_tests litOk xctOk).1 ∧
      (run_tests litOk xctOk).2 = false) := by
  cases litOk <;> cases xctOk <;> decide

/-- C4 (witness): with a failing lit sub-run, the xctest runner is not
invoked and the phase reports failure. -/
theorem run_tests_short_circuit_witness :
    TestInv.xctestRun ∉ (run_tests false true).1 ∧
      (run_tests false true).2 = false :=
  (run_tests_iff_and_order false true).2.2 rfl

/-- C5 (counterexample): the `call` of `Examples/swift-syntax/build-script.py`
returns the child's non-zero exit code 1 normally instead of signalling any
failure. -/
theorem call_returns_normally_counterexample :
    swiftsyntax_call ["swiftc", "--version"] 1 = Except.ok 1 ∧
      (1 : Nat) ≠ 0 :=
  ⟨rfl, by decide⟩

/-- C5 (amended): on a non-zero child exit, `Utilities/helpers.py` `call`
and the swift-syntax `check_call` raise a structured `CalledProcessError`
carrying the command line and the exit code (no output is captured by
`check_call`); the build-script-helper `call` prints the diagnostic and
raises `SystemExit` with status 1; and the swift-syntax `call` returns the
exit code normally to its caller. -/
theorem call_nonzero_exit_amended (cmd : List String) (code : Nat)
    (h : code ≠ 0) :
    helpers_call cmd code =
      Except.error (CalledProcessError.mk cmd code) ∧
    buildscripthelper_call cmd code = Except.error (SystemExit.mk 1) ∧
    swiftsyntax_call cmd code = Except.ok code ∧
    swiftsyntax_check_call cmd code =
      Except.error (CalledProcessError.mk cmd code) := by
  refine ⟨?_, ?_, rfl, ?_⟩ <;>
    simp [helpers_call, buildscripthelper_call, swiftsyntax_check_call, h]

/-- C5 (witness): the four behaviors at the concrete command and exit code 1. -/
theorem call_nonzero_exit_witness :
    helpers_call ["false"] 1 =
      Except.error (CalledProcessError.mk ["false"] 1) ∧
    buildscripthelper_call ["false"] 1 = Except.error (SystemExit.mk 1) ∧
    swiftsyntax_call ["false"] 1 = Except.ok 1 ∧
    swiftsyntax_check_call ["false"] 1 =
      Except.error (CalledProcessError.mk ["false"] 1) :=
  call_nonzero_exit_amended ["false"] 1 (by decide)

/-- C6 (counterexample): with parent search path `/usr/bin` and auxiliary
compiler `/tc/bin/swiftc`, the child environment receives the prepended path
`/tc/bin:/usr/bin` — but the parent environment observed after the call is
not the original `/usr/bin`: `subenv = os.environ` aliases the parent map,
so the override mutates process-wide state. -/
theorem xctests_env_counterexample :
    (run_xctests_envs (EnvMap.mk "/usr/bin") (some "/tc/bin/swiftc")).1 =
      EnvMap.mk "/tc/bin:/usr/bin" ∧
    (run_xctests_envs (EnvMap.mk "/usr/bin") (some "/tc/bin/swiftc")).2 ≠
      EnvMap.mk "/usr/bin" := by
  constructor
  · decide
  · decide

/-- C6 (amended): when an auxiliary compiler path is supplied, the
environment map passed to the child has the compiler's containing directory
prepended to its search-path variable — and, because the map assigned to is
the parent's own environment object rather than a copy, the parent's
environment afterwards carries the same prepended value (the override is a
process-wide mutation, not a copy-on-write overlay); with no compiler path
supplied both environments are unchanged. -/
theorem xctests_env_mutation (parentPath p : String) :
    run_xctests_envs (EnvMap.mk parentPath) (some p) =
      (EnvMap.mk (containingDir p ++ ":" ++ parentPath),
       EnvMap.mk (containingDir p ++ ":" ++ parentPath)) ∧
    run_xctests_envs (EnvMap.mk parentPath) none =
      (EnvMap.mk parentPath, EnvMap.mk parentPath) :=
  ⟨rfl, rfl⟩

/-- C7: the reconciliation copies the candidate over the destination exactly
when the destination is missing or its content differs, reporting `differs`;
when the contents are equal the destination record — modification time
included — is returned untouched and the decision is `identical`. -/
theorem syncIfChanged_spec (cand : String) (now : Nat) :
    (syncIfChanged cand none now =
      (some (FileRec.mk cand now), SyncDecision.differs)) ∧
    (∀ f : FileRec, f.content = cand →
      syncIfChanged cand (some f) now = (some f, SyncDecision.identical)) ∧
    (∀ f : FileRec, f.content ≠ cand →
      syncIfChanged cand (some f) now =
        (some (FileRec.mk cand now), SyncDecision.differs)) := by
  refine ⟨rfl, ?_, ?_⟩ <;> intro f h <;> simp [syncIfChanged, h]

/-- C7 (witness): an identical destination with modification time 5 is
returned unchanged when synced at time 9. -/
theorem syncIfChanged_spec_witness :
    syncIfChanged "let x = 1" (some (FileRec.mk "let x = 1" 5)) 9 =
      (some (FileRec.mk "let x = 1" 5), SyncDecision.identical) :=
  (syncIfChanged_spec "let x = 1" 9).2.1 (FileRec.mk "let x = 1" 5) rfl

/-- C8 (counterexample): the argument containing a tab — a whitespace
character — is echoed unchanged, not wrapped in quotes, because the source
tests only for the space character and the double quote. -/
theorem escape_whitespace_counterexample :
    ("a\tb".data.any Char.isWhitespace = true) ∧
    escapeCmdArg "a\tb" = "a\tb" ∧
    escapeCmdArg "a\tb" ≠ "\"a\tb\"" ∧
    call_echo ["a\tb"] true = some "a\tb" := by
  refine ⟨by decide, by decide, by decide, by decide⟩

/-- C8 (amended): in verbose mode the echoed line is the arguments joined by
spaces after per-argument escaping, while execution always receives the
unmodified argument vector; an argument containing a space or a double quote
is wrapped in double quotes with inner double quotes backslash-escaped, and
an argument containing neither a space nor a double quote is echoed
unchanged. -/
theorem escape_and_exec_amended (cmd : List String) (arg : String) :
    call_exec_vector cmd = cmd ∧
    call_echo cmd true = some (joinSpace (cmd.map escapeCmdArg)) ∧
    (listHasChar arg.data '"' = false ∧ listHasChar arg.data ' ' = false →
      escapeCmdArg arg = arg) ∧
    (listHasChar arg.data '"' = true ∨ listHasChar arg.data ' ' = true →
      escapeCmdArg arg =
        "\"" ++ String.mk (replaceChar '"' ['\\', '"'] arg.data) ++ "\"") := by
  refine ⟨rfl, rfl, ?_, ?_⟩
  · intro h
    simp [escapeCmdArg, h.1, h.2]
  · intro h
    rcases h with h | h <;> simp [escapeCmdArg, h]

/-- C8 (witness): the space-containing argument is echoed wrapped in quotes. -/
theorem escape_and_exec_witness :
    escapeCmdArg "hello world" =
      "\"" ++ String.mk (replaceChar '"' ['\\', '"'] "hello world".data) ++ "\"" :=
  (escape_and_exec_amended ["x"] "hello world").2.2.2 (Or.inr (by decide))

/-- C9: whichever branch discovered the compiler path, the returned path gets
the character `c` appended exactly when the discovered path's basename is
`swift`, and is returned as discovered otherwise. -/
theorem swiftc_path_suffix_rule (d : SwiftcDiscovery) :
    (basename (discoveredSwiftcPath d) = "swift" →
      get_swiftc_path d = discoveredSwiftcPath d ++ "c") ∧
    (basename (discoveredSwiftcPath d) ≠ "swift" →
      get_swiftc_path d = discoveredSwiftcPath d) := by
  constructor <;> intro h <;> simp [get_swiftc_path, h]

/-- C9 (witness): a compiler discovered through the environment variable at
`/usr/bin/swift` is returned as `/usr/bin/swiftc`. -/
theorem swiftc_path_suffix_witness :
    get_swiftc_path (SwiftcDiscovery.envVar "/usr/bin/swift") =
      "/usr/bin/swift" ++ "c" :=
  (swiftc_path_suffix_rule (SwiftcDiscovery.envVar "/usr/bin/swift")).1
    (by decide)

/-- C10: after `change_directory` exits — whether its body completed normally
or raised — the working directory equals the directory observed on entry,
and any exception from the body propagates. -/
theorem change_directory_restores_cwd (cwd0 dir : String)
    (body : String → String × Option Nat) :
    (change_directory cwd0 dir body).1 = cwd0 ∧
    (change_directory cwd0 dir body).2 = (body dir).2 :=
  ⟨rfl, rfl⟩
